import Mathlib

/-!
Verification of the query-intent resolution and tabular-answer engine of
`app.py` (NBA question-answering web app).

The embedding models the per-game table as a list of typed rows, the parsing
function `parse_question` as a pipeline of four keyword-matching steps over the
lower-cased question (mirroring the four keyword blocks of the Python source),
and `search_answer` as a case split on the parsed intent.  Per-game statistic
columns hold decimal values with a fixed number of fractional digits in the CSV;
they are modelled exactly as integers in fixed-point units (tenths), which
preserves every comparison the code performs.  The pandas row index label is
modelled as the `idx` field of a row: `pd.read_csv` assigns labels 0,1,2,… in
file order, and `sort_values` keeps each row's label.
-/

namespace NbaQna

/-- One row of `per_game.csv` as consumed by `app.py`: the pandas index label,
the `Player`, `Tm`, season and `G` columns, and the stat columns the code reads
(`PTS`, `AST`, `TRB`, `FG%`), in fixed-point units. -/
structure Row where
  idx : Nat
  player : String
  tm : String
  season : String
  g : Nat
  pts : Int
  ast : Int
  trb : Int
  fg : Int
deriving DecidableEq, Repr

/-- The parsed-question dictionary built by `parse_question`:
`{"type": ..., "target": ..., "stat": ...}`. -/
structure Parsed where
  type : String
  target : Option String
  stat : Option String
deriving DecidableEq, Repr

/-- Python's `str.lower()` applied to a question, as a character list. -/
def lowerL (s : String) : List Char := s.data.map Char.toLower

/-- Helper for substring search: does the needle start the haystack? -/
def startsList : List Char → List Char → Bool
  | [], _ => true
  | _ :: _, [] => false
  | a :: as, b :: bs => a == b && startsList as bs

/-- Python's `needle in haystack` substring containment over character lists. -/
def hasSubList (needle : List Char) : List Char → Bool
  | [] => needle.isEmpty
  | b :: bs => startsList needle (b :: bs) || hasSubList needle bs

/-- Python's `kw in q` for a keyword literal against the lower-cased question. -/
def hasKw (q : List Char) (kw : String) : Bool := hasSubList kw.data q

/-- Python's `sub in s` on whole strings (used only to state properties). -/
def containsStr (s sub : String) : Bool := hasSubList sub.data s.data

/-- Scoring-ranking keyword group of `parse_question` (app.py line 54). -/
def pts_kw (q : List Char) : Bool :=
  hasKw q "득점 순위" || hasKw q "득점 탑" || hasKw q "득점 1위"

/-- Assist-ranking keyword group of `parse_question` (app.py line 57). -/
def ast_kw (q : List Char) : Bool :=
  hasKw q "어시스트 순위" || hasKw q "어시스트 탑" || hasKw q "어시스트 1위"

/-- Rebound-ranking keyword group of `parse_question` (app.py line 60). -/
def trb_kw (q : List Char) : Bool :=
  hasKw q "리바운드 순위" || hasKw q "리바운드 탑" || hasKw q "리바운드 1위"

/-- Any ranking keyword group matches (used to state "matches a ranking
pattern"). -/
def ranking_kw (q : List Char) : Bool := pts_kw q || ast_kw q || trb_kw q

/-- Ranking-keyword block of `parse_question` (app.py lines 54-62). -/
def ranking_step (q : List Char) (p : Parsed) : Parsed :=
  if pts_kw q then { p with type := "ranking", stat := some "PTS" }
  else if ast_kw q then { p with type := "ranking", stat := some "AST" }
  else if trb_kw q then { p with type := "ranking", stat := some "TRB" }
  else p

/-- The predicate of the player-name scan: `player.lower() in question`. -/
def playerMatches (q : List Char) (pl : String) : Bool := hasSubList (lowerL pl) q

/-- Player-name loop of `parse_question` (app.py lines 65-69): first list
element whose lower-cased name occurs in the question wins and breaks. -/
def player_step (q : List Char) (players : List String) (p : Parsed) : Parsed :=
  match players.find? (playerMatches q) with
  | some pl => { p with type := "player_stat", target := some pl }
  | none => p

/-- Roster-keyword block of `parse_question` (app.py lines 72-78). -/
def roster_step (q : List Char) (p : Parsed) : Parsed :=
  if hasKw q "선수 명단" || hasKw q "멤버" || hasKw q "선수 목록" then
    if hasKw q "레이커스" || hasKw q "lakers" then
      { p with type := "roster", target := some "LAL" }
    else if hasKw q "보스턴" || hasKw q "celtics" then
      { p with type := "roster", target := some "BOS" }
    else { p with type := "roster" }
  else p

/-- MVP/award block of `parse_question` (app.py lines 81-83). -/
def award_step (q : List Char) (p : Parsed) : Parsed :=
  if hasKw q "mvp" && (hasKw q "정규시즌" || hasKw q "시즌") then
    { p with type := "award", target := some "MVP" }
  else p

/-- The whole of `parse_question` (app.py lines 46-85): lower-case the
question, start from `{"type": "other", "target": None, "stat": None}` and run
the four keyword blocks in source order, each mutating the dictionary. -/
def parse_question (question : String) (players : List String) : Parsed :=
  let q := lowerL question
  award_step q (roster_step q (player_step q players
    (ranking_step q { type := "other", target := none, stat := none })))

/-- Lexicographic order on character lists by code point, matching Python's
string `<` used by `sorted`. -/
def lexLt : List Char → List Char → Bool
  | [], [] => false
  | [], _ :: _ => true
  | _ :: _, [] => false
  | a :: as, b :: bs => if a < b then true else if b < a then false else lexLt as bs

/-- Insert a string into an ascending sorted list. -/
def insertSorted (s : String) : List String → List String
  | [] => [s]
  | t :: ts => if lexLt s.data t.data then s :: t :: ts else t :: insertSorted s ts

/-- Python's `sorted` on a list of strings. -/
def sortStrings (l : List String) : List String := l.foldr insertSorted []

/-- Derivation of the global `players_list` in `load_data` (app.py line 32):
`sorted(df_per_game['Player'].unique().tolist())`. -/
def players_list (df : List Row) : List String :=
  sortStrings (df.map Row.player).dedup

/-- Dynamic column access `row[parsed['stat']]` for the stat keys
`parse_question` can emit; any other key would raise in pandas and is
unreachable from the parser, so it is given a junk value here. -/
def statVal (stat : String) (row : Row) : Int :=
  if stat = "PTS" then row.pts
  else if stat = "AST" then row.ast
  else if stat = "TRB" then row.trb
  else 0

/-- Insertion into a descending-sorted row list, used to model
`sort_values(by=stat, ascending=False)`. -/
def insertDesc (stat : String) (r : Row) : List Row → List Row
  | [] => [r]
  | s :: ss =>
    if statVal stat s < statVal stat r then r :: s :: ss
    else s :: insertDesc stat r ss

/-- Model of `df_per_game.sort_values(by=stat, ascending=False)`: the rows
sorted so the stat column is non-increasing; index labels travel with their
rows. -/
def sort_values (stat : String) : List Row → List Row
  | [] => []
  | r :: rs => insertDesc stat r (sort_values stat rs)

/-- The ranking branch's selected rows (app.py line 101):
`df_per_game.sort_values(by=parsed["stat"], ascending=False).head(5)`. -/
def ranking_result (stat : String) (df : List Row) : List Row :=
  (sort_values stat df).take 5

/-- The rank number printed for a row by the ranking loop (app.py lines
106-107): `iterrows` yields the index label `i`, and the line starts with
`i+1`. -/
def rank_label (row : Row) : Nat := row.idx + 1

/-- The sequence of rank numbers the ranking answer prints, in output order. -/
def ranking_rank_labels (stat : String) (df : List Row) : List Nat :=
  (ranking_result stat df).map rank_label

/-- Rendering of a fixed-point stat value in an answer line; stands in for
Python's float formatting (no claim inspects the digits themselves). -/
def statRepr (x : Int) : String := toString x

/-- The ranking answer text (app.py lines 103-108). -/
def rankingAnswer (stat : String) (df : List Row) : String :=
  "🏆 " ++ stat ++ " 순위 TOP 5 (2023-24 시즌 기준):\n" ++
  String.join ((ranking_result stat df).map (fun row =>
    toString (rank_label row) ++ ". " ++ row.player ++ " (" ++ row.tm ++
    ") | 기록: " ++ statRepr (statVal stat row) ++ "\n"))

/-- The player-stat lookup (app.py line 115):
`df_per_game[df_per_game['Player'] == parsed["target"]].head(1)` followed by
the emptiness test; `head(1)` of the filtered frame is its first row when one
exists. -/
def player_stat_result (target : String) (df : List Row) : Option Row :=
  (df.filter (fun r => r.player == target)).head?

/-- The found-player answer text (app.py lines 119-125). -/
def playerAnswer (row : Row) : String :=
  "👤 " ++ row.player ++ " 선수 기록 (2023-24 시즌 기준):\n" ++
  "  - 소속 팀: " ++ row.tm ++ "\n" ++
  "  - 평균 득점 (PTS): " ++ statRepr row.pts ++ "\n" ++
  "  - 평균 어시스트 (AST): " ++ statRepr row.ast ++ "\n" ++
  "  - 평균 리바운드 (TRB): " ++ statRepr row.trb ++ "\n" ++
  "  - 야투율 (FG%): " ++ statRepr row.fg ++ "\n"

/-- Python's interpolation of an optional value into an f-string: `None`
prints as the text "None". -/
def optStr : Option String → String
  | none => "None"
  | some s => s

/-- The player-not-found answer text (app.py line 127). -/
def notFoundMsg (target : String) : String :=
  "'" ++ target ++ "' 선수의 기록을 찾을 수 없습니다. 이름이 정확한지 확인해주세요."

/-- The roster placeholder answer text (app.py line 131). -/
def rosterMsg (target : Option String) : String :=
  "요청하신 팀 '" ++ optStr target ++ "'의 선수 명단을 검색하는 로직입니다. (현재 로직 미구현)"

/-- The award placeholder answer text (app.py line 133). -/
def awardMsg : String := "요청하신 MVP 수상자를 검색하는 로직입니다. (현재 로직 미구현)"

/-- The unsupported-question answer text (app.py line 135). -/
def genericMsg : String :=
  "🤔 현재 질문 유형은 지원하지 않습니다. 검색 가능한 질문 예시를 참고해주세요."

/-- The data-not-loaded answer text (app.py lines 98 and 113). -/
def dataUnavail : String := "데이터가 로드되지 않았습니다."

/-- Python truthiness of `parsed["stat"]` / `parsed["target"]`: `None` and the
empty string are falsy. -/
def truthy : Option String → Bool
  | none => false
  | some s => !(s == "")

/-- The whole of `search_answer` (app.py lines 89-135).  The failed-load state
(`df_per_game is None or df_per_game.empty`) is modelled as the empty list. -/
def search_answer (parsed : Parsed) (df_per_game : List Row) : String :=
  if parsed.type = "ranking" ∧ truthy parsed.stat = true then
    if df_per_game = [] then dataUnavail
    else rankingAnswer (optStr parsed.stat) df_per_game
  else if parsed.type = "player_stat" ∧ truthy parsed.target = true then
    if df_per_game = [] then dataUnavail
    else
      match player_stat_result (optStr parsed.target) df_per_game with
      | some row => playerAnswer row
      | none => notFoundMsg (optStr parsed.target)
  else if parsed.type = "roster" then rosterMsg parsed.target
  else if parsed.type = "award" then awardMsg
  else genericMsg

/-- The POST pipeline of the `index` route (app.py lines 492-497) over a table
state: parse the question against the player list derived from the table, then
search.  A failed or absent load leaves both the table and the player list
empty, which the same model state `df = []` covers. -/
def resolve (question : String) (df : List Row) : String :=
  search_answer (parse_question question (players_list df)) df

/-- Code point of the first character of an answer string (0 when empty); each
of the seven answer templates of `search_answer` starts with its own fixed
character, and the exception wrapper of the `index` route starts with yet
another. -/
def headCode (s : String) : Nat := (s.data.head?.map Char.toNat).getD 0

/-- First-character codes of the seven answer templates of `search_answer`:
the ranking trophy, `데` of the data-unavailable text, the player silhouette,
the apostrophe opening the not-found text, `요` opening both placeholder texts,
and the thinking face of the generic text. -/
def answer_head_ok (s : String) : Bool :=
  ([127942, 45936, 128100, 39, 50836, 129300] : List Nat).contains (headCode s)

/-- Modelled from the spec: the maximum games-played over the rows of a season
(spec section 8 states the ranking's games threshold as `0.5 x max games-played
in that season`); used only to state claim C1, the code applies no such
threshold. -/
def specMaxGames (season : String) (df : List Row) : Nat :=
  (df.filter (fun r => r.season == season)).foldr (fun r m => max r.g m) 0

/-! ## Helper lemmas -/

lemma startsList_iff (n : List Char) : ∀ h : List Char, startsList n h = true ↔ n <+: h := by
  induction n with
  | nil => intro h; simp [startsList, List.nil_prefix]
  | cons a as ih =>
    intro h
    cases h with
    | nil => simp [startsList]
    | cons b bs => simp [startsList, List.cons_prefix_cons, ih, Bool.and_eq_true, beq_iff_eq]

lemma hasSubList_iff (n : List Char) : ∀ h : List Char, hasSubList n h = true ↔ n <:+: h := by
  intro h
  induction h with
  | nil => simp [hasSubList, List.infix_nil, List.isEmpty_iff]
  | cons b bs ih =>
    simp [hasSubList, List.infix_cons_iff, startsList_iff, ih, Bool.or_eq_true]

lemma hasSubList_trans {m n h : List Char} (h1 : hasSubList m n = true)
    (h2 : hasSubList n h = true) : hasSubList m h = true :=
  (hasSubList_iff m h).mpr (((hasSubList_iff m n).mp h1).trans ((hasSubList_iff n h).mp h2))

lemma mem_insertSorted {s t : String} : ∀ l : List String,
    t ∈ insertSorted s l ↔ t = s ∨ t ∈ l := by
  intro l
  induction l with
  | nil => simp [insertSorted]
  | cons a l ih =>
    unfold insertSorted
    split
    · simp
    · simp [ih]; tauto

lemma mem_sortStrings {t : String} {l : List String} : t ∈ sortStrings l ↔ t ∈ l := by
  induction l with
  | nil => simp [sortStrings]
  | cons a l ih => simp [sortStrings, mem_insertSorted] at ih ⊢; rw [ih]

lemma mem_players_list {pl : String} {df : List Row} :
    pl ∈ players_list df ↔ pl ∈ df.map Row.player := by
  unfold players_list
  rw [mem_sortStrings, List.mem_dedup]

lemma mem_insertDesc {stat : String} {r x : Row} : ∀ l : List Row,
    x ∈ insertDesc stat r l ↔ x = r ∨ x ∈ l := by
  intro l
  induction l with
  | nil => simp [insertDesc]
  | cons s ss ih =>
    unfold insertDesc
    split
    · simp
    · simp [ih]; tauto

lemma pairwise_insertDesc {stat : String} (r : Row) : ∀ l : List Row,
    List.Pairwise (fun a b => statVal stat b ≤ statVal stat a) l →
    List.Pairwise (fun a b => statVal stat b ≤ statVal stat a) (insertDesc stat r l) := by
  intro l
  induction l with
  | nil => intro _; simp [insertDesc]
  | cons s ss ih =>
    intro hp
    rcases List.pairwise_cons.mp hp with ⟨hs, hss⟩
    unfold insertDesc
    split
    · rename_i hlt
      refine List.pairwise_cons.mpr ⟨?_, hp⟩
      intro y hy
      rcases List.mem_cons.mp hy with rfl | hy
      · exact le_of_lt hlt
      · exact le_trans (hs y hy) (le_of_lt hlt)
    · rename_i hnlt
      refine List.pairwise_cons.mpr ⟨?_, ih hss⟩
      intro y hy
      rcases (mem_insertDesc ss).mp hy with rfl | hy
      · exact le_of_not_lt hnlt
      · exact hs y hy

lemma pairwise_sort_values (stat : String) : ∀ df : List Row,
    List.Pairwise (fun a b => statVal stat b ≤ statVal stat a) (sort_values stat df) := by
  intro df
  induction df with
  | nil => simp [sort_values]
  | cons r rs ih => exact pairwise_insertDesc r _ ih

lemma mem_sort_values {stat : String} {x : Row} : ∀ df : List Row,
    x ∈ sort_values stat df ↔ x ∈ df := by
  intro df
  induction df with
  | nil => simp [sort_values]
  | cons r rs ih => simp [sort_values, mem_insertDesc, ih]

lemma head?_filter_eq_find? {α : Type} (p : α → Bool) : ∀ l : List α,
    (l.filter p).head? = l.find? p := by
  intro l
  induction l with
  | nil => rfl
  | cons a l ih =>
    cases h : p a with
    | true => simp [List.filter_cons, h, List.find?_cons_of_pos _ h]
    | false =>
      have hneg : ¬p a = true := by simp [h]
      simp [List.filter_cons, h, List.find?_cons_of_neg _ hneg, ih]

lemma ne_of_headCode {s t : String} (h : headCode s ≠ headCode t) : s ≠ t :=
  fun he => h (he ▸ rfl)

lemma playerAnswer_ne_notFound (row : Row) (s : String) : playerAnswer row ≠ notFoundMsg s :=
  ne_of_headCode (by intro h; rw [show headCode (playerAnswer row) = 128100 from rfl,
    show headCode (notFoundMsg s) = 39 from rfl] at h; exact absurd h (by decide))

lemma genericMsg_ne_notFound (s : String) : genericMsg ≠ notFoundMsg s :=
  ne_of_headCode (by intro h; rw [show headCode genericMsg = 129300 from rfl,
    show headCode (notFoundMsg s) = 39 from rfl] at h; exact absurd h (by decide))

/-! ### Structure lemmas about the parsing steps -/

lemma award_step_eq_or (q : List Char) (p : Parsed) :
    award_step q p = p ∨ (award_step q p).type = "award" := by
  unfold award_step; split
  · exact Or.inr rfl
  · exact Or.inl rfl

lemma roster_step_eq_or (q : List Char) (p : Parsed) :
    roster_step q p = p ∨ (roster_step q p).type = "roster" := by
  unfold roster_step
  split
  · split
    · exact Or.inr rfl
    · split
      · exact Or.inr rfl
      · exact Or.inr rfl
  · exact Or.inl rfl

lemma player_step_eq_or (q : List Char) (ps : List String) (p : Parsed) :
    player_step q ps p = p ∨ (player_step q ps p).type = "player_stat" := by
  unfold player_step
  cases ps.find? (playerMatches q) <;> simp

lemma ranking_step_eq_or (q : List Char) (p : Parsed) :
    (ranking_step q p = p ∧ ranking_kw q = false) ∨
    ((ranking_step q p).type = "ranking" ∧ truthy (ranking_step q p).stat = true) := by
  unfold ranking_step ranking_kw
  cases h1 : pts_kw q <;> cases h2 : ast_kw q <;> cases h3 : trb_kw q <;>
    simp [h1, h2, h3, truthy]

lemma ranking_step_type_of_kw {q : List Char} (p : Parsed) (h : ranking_kw q = true) :
    (ranking_step q p).type = "ranking" := by
  rcases ranking_step_eq_or q p with ⟨_, hf⟩ | ⟨ht, _⟩
  · rw [hf] at h; exact absurd h (by decide)
  · exact ht

lemma parse_player_stat_struct (question : String) (players : List String)
    (h : (parse_question question players).type = "player_stat") :
    ∃ pl, players.find? (playerMatches (lowerL question)) = some pl ∧
      (parse_question question players).target = some pl := by
  unfold parse_question at h ⊢
  rcases award_step_eq_or (lowerL question)
      (roster_step (lowerL question) (player_step (lowerL question) players
        (ranking_step (lowerL question) { type := "other", target := none, stat := none })))
    with h4 | h4
  · rw [h4] at h ⊢
    rcases roster_step_eq_or (lowerL question)
        (player_step (lowerL question) players
          (ranking_step (lowerL question) { type := "other", target := none, stat := none }))
      with h3 | h3
    · rw [h3] at h ⊢
      unfold player_step at h ⊢
      cases hf : players.find? (playerMatches (lowerL question)) with
      | none =>
        rw [hf] at h
        have h' : (ranking_step (lowerL question)
            { type := "other", target := none, stat := none }).type = "player_stat" := h
        rcases ranking_step_eq_or (lowerL question)
            { type := "other", target := none, stat := none } with ⟨h1, _⟩ | ⟨h1, _⟩
        · rw [h1] at h'; exact absurd h' (by decide)
        · rw [h1] at h'; exact absurd h' (by decide)
      | some pl => exact ⟨pl, rfl, rfl⟩
    · rw [h3] at h; exact absurd h (by decide)
  · rw [h4] at h; exact absurd h (by decide)

lemma parse_question_cases (question : String) (players : List String) :
    parse_question question players =
      ranking_step (lowerL question) { type := "other", target := none, stat := none } ∨
    (parse_question question players).type = "player_stat" ∨
    (parse_question question players).type = "roster" ∨
    (parse_question question players).type = "award" := by
  unfold parse_question
  rcases award_step_eq_or (lowerL question)
      (roster_step (lowerL question) (player_step (lowerL question) players
        (ranking_step (lowerL question) { type := "other", target := none, stat := none })))
    with h4 | h4
  · rw [h4]
    rcases roster_step_eq_or (lowerL question)
        (player_step (lowerL question) players
          (ranking_step (lowerL question) { type := "other", target := none, stat := none }))
      with h3 | h3
    · rw [h3]
      rcases player_step_eq_or (lowerL question) players
          (ranking_step (lowerL question) { type := "other", target := none, stat := none })
        with h2 | h2
      · rw [h2]; exact Or.inl rfl
      · exact Or.inr (Or.inl h2)
    · exact Or.inr (Or.inr (Or.inl h3))
  · exact Or.inr (Or.inr (Or.inr h4))

lemma parse_ranking_truthy (question : String) (players : List String)
    (h : (parse_question question players).type = "ranking") :
    truthy (parse_question question players).stat = true := by
  rcases parse_question_cases question players with he | ht | ht | ht
  · rw [he] at h ⊢
    rcases ranking_step_eq_or (lowerL question)
        { type := "other", target := none, stat := none } with ⟨h1, _⟩ | ⟨_, h1⟩
    · rw [h1] at h; exact absurd h (by decide)
    · exact h1
  · exact absurd (ht.symm.trans h) (by decide)
  · exact absurd (ht.symm.trans h) (by decide)
  · exact absurd (ht.symm.trans h) (by decide)

lemma search_answer_of_other {p : Parsed} (df : List Row) (h : p.type = "other") :
    search_answer p df = genericMsg := by
  unfold search_answer
  simp [h]

lemma search_answer_of_ranking_empty {p : Parsed} (h : p.type = "ranking")
    (hs : truthy p.stat = true) : search_answer p [] = dataUnavail := by
  unfold search_answer
  simp [h, hs]

/-! ## Concrete tables used by the claims -/

/-- First row of the two-season table for claim C1: a 2023-24 regular with 70
games and 30.0 points per game. -/
def rowS1 : Row := ⟨0, "Alpha", "LAL", "2023-24", 70, 300, 0, 0, 0⟩

/-- Second row of the two-season table for claim C1: a 2022-23 row with only 5
games and 25.0 points per game. -/
def rowS2 : Row := ⟨1, "Beta", "BOS", "2022-23", 5, 250, 0, 0, 0⟩

/-- Two-season table: one qualified 2023-24 row, one small-sample 2022-23 row. -/
def dfC1 : List Row := [rowS1, rowS2]

/-- Table for claim C2, stored with the weaker scorer first so that the pandas
index labels disagree with the sorted positions. -/
def dfC2 : List Row :=
  [⟨0, "Alpha", "AAA", "2023-24", 70, 100, 0, 0, 0⟩,
   ⟨1, "Beta", "BBB", "2023-24", 70, 200, 0, 0, 0⟩]

/-! ## Claims -/

/-- C1, counterexample.  The ranking branch of `search_answer` ignores both the
season and the games-played threshold: on a table holding a 70-game 2023-24 row
and a 5-game 2022-23 row, the returned sequence contains the 2022-23 row, which
belongs to another season and falls below half the maximum games played in
2023-24.  This refutes the claim as stated for season "2023-24", stat "PTS"
and any n ≥ 2. -/
theorem c1_counterexample :
    ¬ (∀ r ∈ ranking_result "PTS" dfC1,
        r.season = "2023-24" ∧ specMaxGames "2023-24" dfC1 ≤ 2 * r.g) := by
  decide

/-- C1, amended.  The ranking branch returns at most five rows of the whole
table, sorted non-increasingly by the requested stat column; it applies no
season filter and no games-played threshold, so the rows are only guaranteed
to come from the table itself. -/
theorem c1_ranking_shape (stat : String) (df : List Row) :
    (ranking_result stat df).length ≤ 5 ∧
    List.Pairwise (fun a b => statVal stat b ≤ statVal stat a) (ranking_result stat df) ∧
    ∀ r ∈ ranking_result stat df, r ∈ df := by
  refine ⟨?_, ?_, ?_⟩
  · unfold ranking_result
    rw [List.length_take]
    exact min_le_left _ _
  · exact List.Pairwise.sublist (List.take_sublist 5 _) (pairwise_sort_values stat df)
  · intro r hr
    exact (mem_sort_values df).mp (List.take_subset 5 _ hr)

/-- C1, witness for the amended theorem at a concrete input: the 2022-23 row is
in the ranking result of `dfC1` and the theorem places it back in `dfC1`. -/
theorem c1_witness :
    (ranking_result "PTS" dfC1).length ≤ 5 ∧ rowS2 ∈ dfC1 :=
  ⟨(c1_ranking_shape "PTS" dfC1).1,
   (c1_ranking_shape "PTS" dfC1).2.2 rowS2 (by decide)⟩

/-- C2, code bug.  The ranking loop iterates with `for i, row in
result_df.iterrows()` and prints `i+1`, but `i` is the pandas index label of
the row, not its position in the sorted order.  On a table whose stronger
scorer sits at index label 1, the answer lists the top row with rank number 2
and the second row with rank number 1, contradicting both the claim and the
source's own comment that ranks are adjusted to start at 1. -/
theorem c2_rank_labels : ranking_rank_labels "PTS" dfC2 = [2, 1] := by decide

/-- C9, counterexample.  A roster question parses to the intent tag "roster",
which is not a member of the enumeration the claim states. -/
theorem c9_counterexample :
    (parse_question "레이커스 선수 명단" []).type = "roster" ∧
    ¬ ((parse_question "레이커스 선수 명단" []).type ∈
        (["player_stat", "ranking", "player_rank", "team_standing", "unrecognized"] :
          List String)) := by
  decide

/-- C9, amended.  The intent tag produced by `parse_question` is always a
member of the closed enumeration the code actually uses: "other", "ranking",
"player_stat", "roster", "award". -/
theorem c9_closed_enum (question : String) (players : List String) :
    (parse_question question players).type ∈
      (["other", "ranking", "player_stat", "roster", "award"] : List String) := by
  rcases parse_question_cases question players with he | ht | ht | ht
  · rw [he]
    rcases ranking_step_eq_or (lowerL question)
        { type := "other", target := none, stat := none } with ⟨h1, _⟩ | ⟨h1, _⟩
    · rw [h1]; simp
    · rw [h1]; simp
  · rw [ht]; simp
  · rw [ht]; simp
  · rw [ht]; simp

/-- First row of the traded-player table for claim C3: the 2022-23 stint with
10 games. -/
def rowP1 : Row := ⟨0, "Prince", "T1", "2022-23", 10, 100, 0, 0, 0⟩

/-- Second row of the traded-player table for claim C3: the 2023-24 stint with
60 games. -/
def rowP2 : Row := ⟨1, "Prince", "T2", "2023-24", 60, 200, 0, 0, 0⟩

/-- Table with two rows for the same player across two seasons. -/
def dfC3 : List Row := [rowP1, rowP2]

/-- C3, counterexample.  Looking up the pair ("Prince", "2023-24") in `dfC3`,
the player_stat branch returns the first matching row outright: its season is
2022-23, not the queried season, and its games-played (10) is not maximal among
the matching rows (the 2023-24 row has 60). -/
theorem c3_counterexample :
    player_stat_result "Prince" dfC3 = some rowP1 ∧
    rowP1.season ≠ "2023-24" ∧
    rowP2 ∈ dfC3 ∧ rowP2.player = "Prince" ∧ rowP2.season = "2023-24" ∧
    rowP1.g < rowP2.g := by
  decide

/-- C3, amended.  The player_stat branch returns the first row of the table
(in table order) whose player column equals the target exactly; the queried
season plays no role and no games-played maximality is applied.  The returned
row's player field does match the query and the row comes from the table. -/
theorem c3_first_match (target : String) (df : List Row) :
    player_stat_result target df = df.find? (fun r => r.player == target) ∧
    ∀ r, player_stat_result target df = some r → r.player = target ∧ r ∈ df := by
  constructor
  · exact head?_filter_eq_find? _ df
  · intro r hr
    rw [player_stat_result, head?_filter_eq_find?] at hr
    exact ⟨by simpa using List.find?_some hr, List.mem_of_find?_eq_some hr⟩

/-- C3, witness: on `dfC3` the lookup for "Prince" returns the first stint, and
the amended theorem confirms its player field and table membership. -/
theorem c3_witness :
    player_stat_result "Prince" dfC3 = some rowP1 ∧
    rowP1.player = "Prince" ∧ rowP1 ∈ dfC3 :=
  ⟨by decide, (c3_first_match "Prince" dfC3).2 rowP1 (by decide)⟩

/-- The scenario query of claim C4. -/
def qC4 : String := "2023-24 시즌 득점 TOP 3 선수는?"

/-- The scenario table of claim C4: exactly three 2023-24 players with 30.0,
28.5 and 27.1 points per game (in tenths), all with 70 games played. -/
def dfC4 : List Row :=
  [⟨0, "Aaa", "T1", "2023-24", 70, 300, 0, 0, 0⟩,
   ⟨1, "Bbb", "T2", "2023-24", 70, 285, 0, 0, 0⟩,
   ⟨2, "Ccc", "T3", "2023-24", 70, 271, 0, 0, 0⟩]

/-- C4, counterexample.  The scenario query parses to the intent "other": the
ranking keywords are "득점 순위", "득점 탑" and "득점 1위", and the lower-cased
query contains "득점 top", which matches none of them.  The produced answer
never even mentions the top player, so no ranked listing is returned. -/
theorem c4_counterexample :
    (parse_question qC4 (players_list dfC4)).type = "other" ∧
    containsStr (resolve qC4 dfC4) "Aaa" = false := by
  decide

/-- C4, amended.  The scenario query falls through every keyword pattern and
the pipeline answers with the fixed unsupported-question message instead of a
ranking listing. -/
theorem c4_generic : resolve qC4 dfC4 = genericMsg := by decide

/-- Table for claim C5 holding players Campbell and Bell. -/
def dfC5 : List Row :=
  [⟨0, "Campbell", "LAL", "2023-24", 70, 300, 0, 0, 0⟩,
   ⟨1, "Bell", "BOS", "2023-24", 70, 200, 0, 0, 0⟩]

/-- C5, counterexample.  `players_list` sorts alphabetically, not by length
descending, so "Bell" precedes "Campbell"; the scan then matches "bell" inside
"campbell" first and resolves the target to "Bell", never reaching
"Campbell". -/
theorem c5_counterexample :
    players_list dfC5 = ["Bell", "Campbell"] ∧
    (parse_question "campbell 평균 득점은?" (players_list dfC5)).target = some "Bell" ∧
    (parse_question "campbell 평균 득점은?" (players_list dfC5)).target ≠ some "Campbell" := by
  decide

/-- C5, amended.  With the alphabetically sorted list ["Bell", "Campbell"],
every query containing "campbell" case-insensitively (and no roster or MVP
keyword, which would overwrite the result) resolves the target to "Bell": the
shorter name embedded in the longer one wins because it sorts first. -/
theorem c5_alphabetical_first (question : String)
    (hc : hasKw (lowerL question) "campbell" = true)
    (h1 : hasKw (lowerL question) "선수 명단" = false)
    (h2 : hasKw (lowerL question) "멤버" = false)
    (h3 : hasKw (lowerL question) "선수 목록" = false)
    (h4 : hasKw (lowerL question) "mvp" = false) :
    (parse_question question ["Bell", "Campbell"]).target = some "Bell" ∧
    (parse_question question ["Bell", "Campbell"]).type = "player_stat" := by
  have hbell : playerMatches (lowerL question) "Bell" = true := by
    have hsub : hasSubList "bell".data "campbell".data = true := by decide
    exact hasSubList_trans hsub hc
  have hfind : (["Bell", "Campbell"] : List String).find? (playerMatches (lowerL question))
      = some "Bell" := List.find?_cons_of_pos _ hbell
  unfold parse_question
  simp only [player_step, hfind, roster_step, award_step, h1, h2, h3, h4]
  simp

/-- C5, witness: a concrete query containing "campbell" whose target resolves
to "Bell". -/
theorem c5_witness :
    hasKw (lowerL "campbell 평균 득점은?") "campbell" = true ∧
    (parse_question "campbell 평균 득점은?" ["Bell", "Campbell"]).target = some "Bell" :=
  ⟨by decide,
   (c5_alphabetical_first "campbell 평균 득점은?" (by decide) (by decide) (by decide)
     (by decide) (by decide)).1⟩

lemma player_step_none {q : List Char} {ps : List String} {p : Parsed}
    (hf : ps.find? (playerMatches q) = none) : player_step q ps p = p := by
  unfold player_step; rw [hf]

lemma player_step_some {q : List Char} {ps : List String} {p : Parsed} {pl : String}
    (hf : ps.find? (playerMatches q) = some pl) :
    player_step q ps p = { p with type := "player_stat", target := some pl } := by
  unfold player_step; rw [hf]

lemma roster_step_no_kw {q : List Char} {p : Parsed} (h1 : hasKw q "선수 명단" = false)
    (h2 : hasKw q "멤버" = false) (h3 : hasKw q "선수 목록" = false) :
    roster_step q p = p := by
  unfold roster_step; rw [h1, h2, h3]; simp

lemma award_step_no_kw {q : List Char} {p : Parsed} (h4 : hasKw q "mvp" = false) :
    award_step q p = p := by
  unfold award_step; rw [h4]; simp

/-- C6, counterexample.  The query "kim 득점 순위는?" matches the scoring
ranking pattern, yet with "Kim" in the player list the final intent is
"player_stat": the player-name step runs after the ranking block and
overwrites the intent rather than being skipped. -/
theorem c6_counterexample :
    ranking_kw (lowerL "kim 득점 순위는?") = true ∧
    (parse_question "kim 득점 순위는?" ["Kim"]).type = "player_stat" ∧
    (parse_question "kim 득점 순위는?" ["Kim"]).type ≠ "ranking" := by
  decide

/-- C6, amended.  The keyword blocks run in source order but a later match
overwrites an earlier one: when a ranking pattern matches and no roster or MVP
keyword occurs, the intent is "player_stat" whenever some known player name is
contained in the query, and "ranking" only when none is. -/
theorem c6_override (question : String) (players : List String)
    (hr : ranking_kw (lowerL question) = true)
    (h1 : hasKw (lowerL question) "선수 명단" = false)
    (h2 : hasKw (lowerL question) "멤버" = false)
    (h3 : hasKw (lowerL question) "선수 목록" = false)
    (h4 : hasKw (lowerL question) "mvp" = false) :
    (∀ pl, players.find? (playerMatches (lowerL question)) = some pl →
      (parse_question question players).type = "player_stat") ∧
    (players.find? (playerMatches (lowerL question)) = none →
      (parse_question question players).type = "ranking") := by
  constructor
  · intro pl hf
    unfold parse_question
    simp only [player_step_some hf, roster_step_no_kw h1 h2 h3, award_step_no_kw h4]
  · intro hf
    unfold parse_question
    simp only [player_step_none hf, roster_step_no_kw h1 h2 h3, award_step_no_kw h4]
    exact ranking_step_type_of_kw _ hr

/-- C6, witness: the concrete overlap query and player list from the
counterexample, with the hypotheses discharged. -/
theorem c6_witness :
    ranking_kw (lowerL "kim 득점 순위는?") = true ∧
    (parse_question "kim 득점 순위는?" ["Kim"]).type = "player_stat" :=
  ⟨by decide,
   (c6_override "kim 득점 순위는?" ["Kim"] (by decide) (by decide) (by decide) (by decide)
     (by decide)).1 "Kim" (by decide)⟩

/-- C7, counterexample.  With both tables empty, the query "mvp 시즌" is
answered with the award placeholder text, not the fixed data-unavailable
message: only the ranking and player_stat branches check the load state. -/
theorem c7_counterexample :
    resolve "mvp 시즌" [] = awardMsg ∧ awardMsg ≠ dataUnavail := by decide

/-- C7, amended.  In the empty/failed-load state only the branches that touch
the table report it: a query parsed to the ranking intent gets the fixed
data-unavailable message, a query matching no pattern gets the ordinary
unsupported-question message, and the player_stat intent cannot arise at all
because the derived player list is empty. -/
theorem c7_empty_state (question : String) :
    ((parse_question question (players_list [])).type = "ranking" →
      resolve question [] = dataUnavail) ∧
    ((parse_question question (players_list [])).type = "other" →
      resolve question [] = genericMsg) ∧
    (parse_question question (players_list [])).type ≠ "player_stat" := by
  refine ⟨?_, ?_, ?_⟩
  · intro h
    exact search_answer_of_ranking_empty h (parse_ranking_truthy question _ h)
  · intro h
    exact search_answer_of_other _ h
  · intro h
    rcases parse_player_stat_struct question _ h with ⟨pl, hf, _⟩
    rw [show players_list [] = ([] : List String) from rfl] at hf
    exact absurd hf (by simp)

/-- C7, witness: a ranking query against the empty state does produce the
data-unavailable message. -/
theorem c7_witness :
    (parse_question "득점 순위" (players_list [])).type = "ranking" ∧
    resolve "득점 순위" [] = dataUnavail :=
  ⟨by decide, (c7_empty_state "득점 순위").1 (by decide)⟩

lemma head_ok_rankingAnswer (stat : String) (df : List Row) :
    answer_head_ok (rankingAnswer stat df) = true := by
  have h : headCode (rankingAnswer stat df) = 127942 := by
    simp [rankingAnswer, headCode, String.data_append,
      show ("🏆 " : String).data = ['🏆', ' '] from rfl]
  simp [answer_head_ok, h]

lemma head_ok_playerAnswer (row : Row) :
    answer_head_ok (playerAnswer row) = true := by
  have h : headCode (playerAnswer row) = 128100 := by
    simp [playerAnswer, headCode, String.data_append,
      show ("👤 " : String).data = ['👤', ' '] from rfl]
  simp [answer_head_ok, h]

lemma head_ok_notFound (t : String) :
    answer_head_ok (notFoundMsg t) = true := by
  have h : headCode (notFoundMsg t) = 39 := by
    simp [notFoundMsg, headCode, String.data_append,
      show ("'" : String).data = [Char.ofNat 39] from rfl]
  simp [answer_head_ok, h]

lemma head_ok_rosterMsg (t : Option String) :
    answer_head_ok (rosterMsg t) = true := by
  have h : headCode (rosterMsg t) = 50836 := by
    simp [rosterMsg, headCode, String.data_append,
      show ("요청하신 팀 '" : String).data.head? = some '요' from rfl]
  simp [answer_head_ok, h]

/-- C8, confirmed.  The pipeline is a total function of the query text and the
table state, and every output is one of the seven designed answer templates,
recognized here by their fixed first characters; in particular the exception
wrapper of the `index` route (which starts with a different character) is
never produced, and lookup failures surface as the not-found or
not-understood texts. -/
theorem c8_total (question : String) (df : List Row) :
    answer_head_ok (resolve question df) = true := by
  have hgen : ∀ p : Parsed, answer_head_ok (search_answer p df) = true := by
    intro p
    unfold search_answer
    split
    · split
      · decide
      · apply head_ok_rankingAnswer
    · split
      · split
        · decide
        · split
          · apply head_ok_playerAnswer
          · apply head_ok_notFound
      · split
        · apply head_ok_rosterMsg
        · split
          · decide
          · decide
  exact hgen _

/-- Single-row table for the C10 witness. -/
def dfW : List Row := [⟨0, "Aaa", "LAL", "2023-24", 70, 300, 50, 80, 500⟩]

/-- C10, confirmed.  Whenever parsing against the player list derived from a
loaded table yields the player_stat intent, the chosen target is one of the
names in that list, hence also a value of the table's Player column, so the
exact-match lookup finds a row and the not-found message is unreachable. -/
theorem c10_player_found (question : String) (df : List Row) (hdf : df ≠ [])
    (h : (parse_question question (players_list df)).type = "player_stat") :
    ∃ pl, (parse_question question (players_list df)).target = some pl ∧
      pl ∈ players_list df ∧
      df.find? (fun r => r.player == pl) ≠ none ∧
      ∀ s, search_answer (parse_question question (players_list df)) df ≠ notFoundMsg s := by
  rcases parse_player_stat_struct question (players_list df) h with ⟨pl, hf, htgt⟩
  have hmem : pl ∈ players_list df := List.mem_of_find?_eq_some hf
  have hexists : ∃ r ∈ df, (r.player == pl) = true := by
    rcases List.mem_map.mp (mem_players_list.mp hmem) with ⟨r, hr, hrp⟩
    exact ⟨r, hr, by simp [hrp]⟩
  have hfind : (df.find? (fun r => r.player == pl)).isSome = true :=
    List.find?_isSome.mpr hexists
  have hfind' : df.find? (fun r => r.player == pl) ≠ none := by
    intro hn; rw [hn] at hfind; simp at hfind
  refine ⟨pl, htgt, hmem, hfind', ?_⟩
  intro s
  cases hq : (pl == "") with
  | true =>
    have hg : search_answer (parse_question question (players_list df)) df = genericMsg := by
      unfold search_answer
      rw [h, htgt]
      simp [truthy, hq]
    rw [hg]; exact genericMsg_ne_notFound s
  | false =>
    have hfs : ∃ row, player_stat_result pl df = some row := by
      rw [player_stat_result, head?_filter_eq_find?]
      exact Option.isSome_iff_exists.mp hfind
    rcases hfs with ⟨row, hrow⟩
    have hp : search_answer (parse_question question (players_list df)) df
        = playerAnswer row := by
      unfold search_answer
      rw [h, htgt]
      simp [truthy, hq, optStr, hdf, hrow]
    rw [hp]; exact playerAnswer_ne_notFound row s

/-- C10, witness: a loaded one-row table and a query naming its player; the
parse yields player_stat and the lookup succeeds. -/
theorem c10_witness :
    dfW ≠ [] ∧ (parse_question "aaa 기록은?" (players_list dfW)).type = "player_stat" ∧
    ∃ pl, (parse_question "aaa 기록은?" (players_list dfW)).target = some pl ∧
      pl ∈ players_list dfW ∧
      dfW.find? (fun r => r.player == pl) ≠ none ∧
      ∀ s, search_answer (parse_question "aaa 기록은?" (players_list dfW)) dfW ≠ notFoundMsg s :=
  ⟨by decide, by decide, c10_player_found "aaa 기록은?" dfW (by decide) (by decide)⟩

end NbaQna
